import Mathlib

/-!
Verification development for the gin-logrus middleware library
(`logging.go`): a request logger (`GinLogrus`), a panic recoverer
(`RecoveryWithLoggerMiddleware`) and their shared field-extraction
routine (`generateLogFields`), shallowly embedded over an explicit
per-request context model.
-/

set_option autoImplicit false
set_option linter.dupNamespace false
set_option linter.unusedVariables false

namespace GinLogrus

/-- A dynamically typed Go value (`interface\x7b\x7d`), as stored in the
gin per-request key/value store and carried by a panic. `vmap` models
`map[string]interface\x7b\x7d`; `vnil` models the nil interface value. -/
inductive GoValue where
  | str (s : String)
  | vint (n : Int)
  | vmap (m : List (String × GoValue))
  | vnil

/-- Whether a recovered value is the nil interface (the `err != nil`
test in the deferred recovery function). -/
def GoValue.isNil : GoValue → Bool
  | .vnil => true
  | _ => false

mutual

/-- Textual rendering of a Go value, as the logging sink stringifies the
`error.message` attribute (the semantics of a `%v`-style rendering:
a string renders as itself, nil as `<nil>`). -/
def GoValue.render : GoValue → String
  | .str s => s
  | .vint n => toString n
  | .vmap m => "map[" ++ GoValue.renderEntries m ++ "]"
  | .vnil => "<nil>"

/-- Rendering of the entries of a string-keyed Go map, space separated. -/
def GoValue.renderEntries : List (String × GoValue) → String
  | [] => ""
  | [(k, v)] => k ++ ":" ++ GoValue.render v
  | (k, v) :: rest => k ++ ":" ++ GoValue.render v ++ " " ++ GoValue.renderEntries rest

end

/-- A scalar value stored in a `logrus.Fields` map: a string, a Go
integer (`int`/`int64`), a float rendered here as an exact rational
(`time.Duration.Seconds`), or a raw dynamic value (the recovered panic
payload placed under `error.message`). -/
inductive FieldValue where
  | str (s : String)
  | int (n : Int)
  | rat (q : ℚ)
  | go (v : GoValue)

/-- A `time.Time` value: absolute instant in nanoseconds since the Unix
epoch, together with the offset (in seconds east of UTC) of the location
the time is expressed in. `time.Now()` yields the local-zone location;
`Format` renders the wall clock in that location. -/
structure GoTime where
  wall : Int
  offset : Int

/-- Zero-pad a natural number to at least two digits (`%02d`). -/
def pad2 (n : Nat) : String :=
  if n < 10 then "0" ++ toString n else toString n

/-- Zero-pad a natural number to at least three digits. -/
def pad3 (n : Nat) : String :=
  if n < 10 then "00" ++ toString n
  else if n < 100 then "0" ++ toString n
  else toString n

/-- Zero-pad a natural number to at least four digits (year field). -/
def pad4 (n : Nat) : String :=
  if n < 10 then "000" ++ toString n
  else if n < 100 then "00" ++ toString n
  else if n < 1000 then "0" ++ toString n
  else toString n

/-- Proleptic Gregorian civil date (year, month, day) of a day count
relative to 1970-01-01 (the standard days-to-civil algorithm used by
calendar conversions such as the one inside `time.Time.Date`). -/
def civilFromDays (z : Int) : Int × Nat × Nat :=
  let z' := z + 719468
  let era := Int.fdiv z' 146097
  let doe := (z' - era * 146097).toNat
  let yoe := (doe - doe / 1460 + doe / 36524 - doe / 146096) / 365
  let y := (yoe : Int) + era * 400
  let doy := doe - (365 * yoe + yoe / 4 - yoe / 100)
  let mp := (5 * doy + 2) / 153
  let d := doy - (153 * mp + 2) / 5 + 1
  let m := if mp < 10 then mp + 3 else mp - 9
  (if m ≤ 2 then y + 1 else y, m, d)

/-- Render an instant (nanoseconds, of the already zone-shifted wall
clock) in the layout `2006-01-02T15:04:05.000Z`: millisecond precision
by truncation, and a LITERAL trailing `Z` — in a Go layout a bare `Z`
is not a zone verb, so no zone conversion is implied by it. -/
def formatLayoutMilliZ (nanos : Int) : String :=
  let sec := Int.fdiv nanos 1000000000
  let subns := (nanos - sec * 1000000000).toNat
  let ms := subns / 1000000
  let day := Int.fdiv sec 86400
  let sod := (sec - day * 86400).toNat
  let ymd := civilFromDays day
  pad4 ymd.1.toNat ++ "-" ++ pad2 ymd.2.1 ++ "-" ++ pad2 ymd.2.2 ++ "T" ++
    pad2 (sod / 3600) ++ ":" ++ pad2 (sod % 3600 / 60) ++ ":" ++ pad2 (sod % 60) ++
    "." ++ pad3 ms ++ "Z"

/-- `t.Format("2006-01-02T15:04:05.000Z")` as executed by the code: the
wall clock is rendered in the location the time carries (the local
zone for a `time.Now()` value); `.UTC()` is never applied. -/
def formatGoTime (t : GoTime) : String :=
  formatLayoutMilliZ (t.wall + t.offset * 1000000000)

/-- Follows the spec wording: the same instant rendered as a UTC
timestamp (millisecond resolution, `Z`-suffixed) regardless of the local
zone the time was captured in. Stated only to compare against
`formatGoTime`. -/
def formatTimestampSpecUTC (t : GoTime) : String :=
  formatLayoutMilliZ t.wall

/-- `time.Duration.Seconds()` of a nanosecond count: fractional seconds,
modelled as an exact rational. -/
def durationSeconds (nanos : Int) : ℚ :=
  (nanos : ℚ) / 1000000000

/-- The inbound `http.Request` as the middleware reads it, with each
accessor the code calls (`URL.String()`, `URL.Port()`, `URL.Hostname()`,
`Referer()`, `UserAgent()`, ...) modelled as the string it returns. -/
structure Request where
  host : String
  urlFragment : String
  urlFull : String
  urlPath : String
  urlPort : String
  urlQuery : String
  urlHostname : String
  urlScheme : String
  contentLength : Int
  method : String
  proto : String
  referer : String
  userAgent : String

/-- The mutable `gin.Context` of one request: the request, the gin
accessors the code calls (`ContentType()`, `ClientIP()`), the response
writer state (`Writer.Size()`, `Writer.Status()`), the request-scoped
key/value store (`c.Get`), the recorded error list (`c.Errors`, each
error rendered as its text), the accumulated response body, the abort
flag, and the state of the trace span attached to the request context. -/
structure GContext where
  request : Request
  contentType : String
  clientIP : String
  writerSize : Int
  writerStatus : Int
  keys : List (String × GoValue)
  errors : List String
  body : String
  aborted : Bool
  spanValid : Bool
  spanErrored : Bool

/-- `UserClaimsKey` — the fixed key for user claims in the context. -/
def UserClaimsKey : String := "userClaims"

/-- The user-claims checks both middlewares perform: `c.Get(UserClaimsKey)`,
a type assertion to `map[string]interface\x7b\x7d`, and a string type
assertion on its `UserID` entry; yields the user id exactly when every
step succeeds. -/
def userClaimsID (c : GContext) : Option String :=
  match c.keys.lookup UserClaimsKey with
  | some (GoValue.vmap userMap) =>
    match userMap.lookup "UserID" with
    | some (GoValue.str userID) => some userID
    | _ => none
  | _ => none

/-- One `c.Next()` clock sequence: `r0` the start instant the caller
captures, `r1` the instant `time.Since` reads inside
`generateLogFields`, `r2` the instant `time.Now()` reads for
`event.end` a moment later. -/
structure ClockReads where
  r0 : GoTime
  r1 : GoTime
  r2 : GoTime

/-- The `logrus.Fields` literal of `generateLogFields`, entry by entry
in source order. `now1` is the clock read of `time.Since(start)` and
`now2` the read of `time.Now()` for `event.end`. -/
def baseLogFields (c : GContext) (start now1 now2 : GoTime) :
    List (String × FieldValue) :=
  let latency := now1.wall - start.wall
  [
    ("url.domain", .str c.request.host),
    ("url.fragment", .str c.request.urlFragment),
    ("url.full", .str c.request.urlFull),
    ("url.original", .str c.request.urlFull),
    ("url.path", .str c.request.urlPath),
    ("url.port", .str c.request.urlPort),
    ("url.query", .str c.request.urlQuery),
    ("url.registered_domain", .str c.request.urlHostname),
    ("url.scheme", .str c.request.urlScheme),
    ("http.request.bytes", .int c.request.contentLength),
    ("http.request.method", .str c.request.method),
    ("http.request.mime_type", .str c.contentType),
    ("http.request.referrer", .str c.request.referer),
    ("http.response.body.bytes", .int c.writerSize),
    ("http.response.status_code", .int c.writerStatus),
    ("http.version", .str c.request.proto),
    ("client.address", .str c.clientIP),
    ("client.ip", .str c.clientIP),
    ("server.address", .str c.request.host),
    ("server.ip", .str c.request.host),
    ("user_agent.original", .str c.request.userAgent),
    ("event.duration", .rat (durationSeconds latency)),
    ("event.start", .str (formatGoTime start)),
    ("event.end", .str (formatGoTime now2))]

/-- `generateLogFields(c, start)`: the flat `logrus.Fields` map of
`baseLogFields`, extended with `user.id` when the user-claims checks
succeed. Modelled as an association list whose keys are exactly the map
keys of the source; the routine is a total function — it has no error
path. -/
def generateLogFields (c : GContext) (start now1 now2 : GoTime) :
    List (String × FieldValue) :=
  let fields := baseLogFields c start now1 now2
  match userClaimsID c with
  | some userID => fields ++ [("user.id", FieldValue.str userID)]
  | none => fields

/-- The severity of an emitted log record. -/
inductive LogLevel where
  | info
  | error
deriving DecidableEq

/-- One record handed to the logging sink: severity, message, and the
field map attached to the entry. -/
structure LogRecord where
  level : LogLevel
  message : String
  fields : List (String × FieldValue)

/-- Outcome of running the wrapped handler chain (`c.Next()`): either a
normal return with the mutated context, or a panic carrying the mutated
context at the fault point and the recovered value. -/
inductive HandlerOutcome where
  | normal (c : GContext)
  | panicked (c : GContext) (v : GoValue)

/-- Outcome of a middleware that does not contain faults: a normal
return with the final context and the records it emitted, or a
propagating panic. -/
inductive MwResult where
  | normal (c : GContext) (logs : List LogRecord)
  | panicked (c : GContext) (v : GoValue)

/-- `logrus` `WithField` semantics on the association-list model:
replace the binding of `k` if present, else append it. -/
def upsert (fs : List (String × FieldValue)) (k : String) (v : FieldValue) :
    List (String × FieldValue) :=
  match fs with
  | [] => [(k, v)]
  | (k', v') :: rest => if k' = k then (k, v) :: rest else (k', v') :: upsert rest k v

/-- `gin.errorMsgs.String()`: each recorded error rendered on its own
line as `Error #NN: text`, numbered from 01 with two-digit padding. -/
def ginErrorsString (errs : List String) : String :=
  (errs.enum.map (fun p => "Error #" ++ pad2 (p.1 + 1) ++ ": " ++ p.2 ++ "\n")).foldr
    (· ++ ·) ""

/-- `GinLogrus(logger)`: capture `start`, run the chain; on normal
return build the fields, re-apply the user-claims check as a
`WithField` on the entry, and emit exactly one record — error level
with the joined `c.Errors` rendering when errors were recorded, info
level otherwise. A panic in the chain propagates: this middleware has
no recovery guard. -/
def GinLogrus (next : GContext → HandlerOutcome) (clk : ClockReads)
    (c : GContext) : MwResult :=
  match next c with
  | .panicked c' v => .panicked c' v
  | .normal c' =>
    let fields := generateLogFields c' clk.r0 clk.r1 clk.r2
    let entryFields :=
      match userClaimsID c' with
      | some userID => upsert fields "user.id" (FieldValue.str userID)
      | none => fields
    if c'.errors.length > 0 then
      .normal c' [⟨LogLevel.error,
        "Request failed: " ++ ginErrorsString c'.errors, entryFields⟩]
    else
      .normal c' [⟨LogLevel.info, "Request processed successfully", entryFields⟩]

/-- `runtime.Stack(buf, false)` into a buffer of `bufLen` bytes: writes
at most `bufLen` bytes of the stack text and reports how many were
written; the snapshot is the (possibly truncated) prefix. The ambient
stack text is an arbitrary input; bytes are modelled as characters. -/
def runtimeStack (stackText : String) (bufLen : Nat) : String :=
  ⟨stackText.data.take bufLen⟩

/-- `RecoveryWithLoggerMiddleware(logger)`: run the chain under a
deferred recovery guard. On a panic with a non-nil recovered value:
capture `start = time.Now()`, take a stack snapshot into a 2048-byte
buffer, build the fields from the catch-point start, emit one
error-level record with `error.message` (the recovered value) and
`error.stack_trace` added to the fields, mark a valid span errored, and
`AbortWithStatus(500)` — which sets the status and abort flag but
writes no body. The guard always returns normally; on a normal return
of the chain (`recover()` nil) it does nothing. `stackText` is the
ambient stack text `runtime.Stack` would capture. -/
def RecoveryWithLoggerMiddleware (next : GContext → HandlerOutcome)
    (stackText : String) (clk : ClockReads) (c : GContext) :
    GContext × List LogRecord :=
  match next c with
  | .normal c' => (c', [])
  | .panicked c' v =>
    if v.isNil then (c', [])
    else
      let stack := runtimeStack stackText 2048
      let fields := generateLogFields c' clk.r0 clk.r1 clk.r2
      let entryFields := fields ++
        [("error.message", FieldValue.go v), ("error.stack_trace", FieldValue.str stack)]
      let c1 := if c'.spanValid then { c' with spanErrored := true } else c'
      ({ c1 with writerStatus := 500, aborted := true },
        [⟨LogLevel.error, "A panic occurred", entryFields⟩])

/-! ## Helper lemmas and fixtures -/

/-- The 24 attribute names `generateLogFields` always populates, in
source order. -/
def requiredLogKeys : List String :=
  ["url.domain", "url.fragment", "url.full", "url.original", "url.path",
   "url.port", "url.query", "url.registered_domain", "url.scheme",
   "http.request.bytes", "http.request.method", "http.request.mime_type",
   "http.request.referrer", "http.response.body.bytes",
   "http.response.status_code", "http.version", "client.address",
   "client.ip", "server.address", "server.ip", "user_agent.original",
   "event.duration", "event.start", "event.end"]

theorem lookup_cons_ne {β : Type} (l : List (String × β)) {j k : String} (v : β)
    (h : j ≠ k) : ((k, v) :: l).lookup j = l.lookup j := by
  simp [List.lookup_cons, beq_false_of_ne h]

theorem lookup_upsert (fs : List (String × FieldValue)) (k : String)
    (v : FieldValue) (j : String) :
    (upsert fs k v).lookup j = if j = k then some v else fs.lookup j := by
  induction fs with
  | nil =>
    by_cases h : j = k
    · subst h; simp [upsert]
    · simp [upsert, lookup_cons_ne _ _ h, h]
  | cons p rest ih =>
    obtain ⟨k', v'⟩ := p
    by_cases h1 : k' = k
    · subst h1
      by_cases h : j = k'
      · subst h; simp [upsert]
      · simp [upsert, lookup_cons_ne _ _ h, h]
    · by_cases h : j = k'
      · subst h
        have hk : ¬j = k := fun hh => h1 (hh ▸ rfl)
        simp [upsert, h1, hk, ih]
      · simp [upsert, h1, lookup_cons_ne _ _ h, ih]

theorem generateLogFields_eq_append (c : GContext) (start now1 now2 : GoTime) :
    generateLogFields c start now1 now2 =
      baseLogFields c start now1 now2 ++
        (match userClaimsID c with
         | some userID => [("user.id", FieldValue.str userID)]
         | none => []) := by
  unfold generateLogFields
  cases h : userClaimsID c <;> simp [h]

theorem baseLogFields_keys (c : GContext) (start now1 now2 : GoTime) :
    (baseLogFields c start now1 now2).map Prod.fst = requiredLogKeys := rfl

theorem baseLogFields_lookup_duration (c : GContext) (start now1 now2 : GoTime) :
    (baseLogFields c start now1 now2).lookup "event.duration" =
      some (FieldValue.rat (durationSeconds (now1.wall - start.wall))) := rfl

theorem baseLogFields_lookup_start (c : GContext) (start now1 now2 : GoTime) :
    (baseLogFields c start now1 now2).lookup "event.start" =
      some (FieldValue.str (formatGoTime start)) := rfl

theorem baseLogFields_lookup_end (c : GContext) (start now1 now2 : GoTime) :
    (baseLogFields c start now1 now2).lookup "event.end" =
      some (FieldValue.str (formatGoTime now2)) := rfl

theorem baseLogFields_lookup_userid (c : GContext) (start now1 now2 : GoTime) :
    (baseLogFields c start now1 now2).lookup "user.id" = none := rfl

theorem baseLogFields_lookup_errmsg (c : GContext) (start now1 now2 : GoTime) :
    (baseLogFields c start now1 now2).lookup "error.message" = none := rfl

theorem baseLogFields_lookup_errstack (c : GContext) (start now1 now2 : GoTime) :
    (baseLogFields c start now1 now2).lookup "error.stack_trace" = none := rfl

theorem generateLogFields_lookup_userid (c : GContext) (start now1 now2 : GoTime) :
    (generateLogFields c start now1 now2).lookup "user.id" =
      (userClaimsID c).map FieldValue.str := by
  rw [generateLogFields_eq_append, List.lookup_append, baseLogFields_lookup_userid]
  cases h : userClaimsID c <;> simp

theorem generateLogFields_lookup_duration (c : GContext) (start now1 now2 : GoTime) :
    (generateLogFields c start now1 now2).lookup "event.duration" =
      some (FieldValue.rat (durationSeconds (now1.wall - start.wall))) := by
  rw [generateLogFields_eq_append, List.lookup_append, baseLogFields_lookup_duration]
  rfl

theorem generateLogFields_lookup_start (c : GContext) (start now1 now2 : GoTime) :
    (generateLogFields c start now1 now2).lookup "event.start" =
      some (FieldValue.str (formatGoTime start)) := by
  rw [generateLogFields_eq_append, List.lookup_append, baseLogFields_lookup_start]
  rfl

theorem generateLogFields_lookup_end (c : GContext) (start now1 now2 : GoTime) :
    (generateLogFields c start now1 now2).lookup "event.end" =
      some (FieldValue.str (formatGoTime now2)) := by
  rw [generateLogFields_eq_append, List.lookup_append, baseLogFields_lookup_end]
  rfl

theorem generateLogFields_lookup_errmsg (c : GContext) (start now1 now2 : GoTime) :
    (generateLogFields c start now1 now2).lookup "error.message" = none := by
  rw [generateLogFields_eq_append, List.lookup_append, baseLogFields_lookup_errmsg]
  cases h : userClaimsID c <;> rfl

theorem generateLogFields_lookup_errstack (c : GContext) (start now1 now2 : GoTime) :
    (generateLogFields c start now1 now2).lookup "error.stack_trace" = none := by
  rw [generateLogFields_eq_append, List.lookup_append, baseLogFields_lookup_errstack]
  cases h : userClaimsID c <;> rfl

theorem userClaimsID_eq_some (c : GContext) (uid : String) :
    userClaimsID c = some uid ↔
      ∃ m, c.keys.lookup UserClaimsKey = some (GoValue.vmap m) ∧
        m.lookup "UserID" = some (GoValue.str uid) := by
  unfold userClaimsID
  cases h : c.keys.lookup UserClaimsKey with
  | none => simp
  | some v =>
    cases v with
    | str s => simp
    | vint n => simp
    | vnil => simp
    | vmap m =>
      cases hm : m.lookup "UserID" with
      | none => simp [hm]
      | some w => cases w <;> simp [hm]

theorem runtimeStack_length_le (s : String) (n : Nat) :
    (runtimeStack s n).length ≤ n := by
  show (s.data.take n).length ≤ n
  rw [List.length_take]
  exact min_le_left _ _

theorem runtimeStack_ne_empty (s : String) (n : Nat) (hs : s ≠ "") (hn : 0 < n) :
    runtimeStack s n ≠ "" := by
  intro h
  apply hs
  have hd : s.data.take n = [] := congrArg String.data h
  rcases List.take_eq_nil_iff.mp hd with h1 | h1
  · exact absurd h1 (Nat.pos_iff_ne_zero.mp hn)
  · exact congrArg String.mk h1

/-- Shared concrete request fixture, the scenario of the spec:
`GET https://api.example.com/v1/items?x=1`. -/
def sampleRequest : Request :=
  { host := "api.example.com", urlFragment := "",
    urlFull := "https://api.example.com/v1/items?x=1", urlPath := "/v1/items",
    urlPort := "", urlQuery := "x=1", urlHostname := "api.example.com",
    urlScheme := "https", contentLength := 0, method := "GET",
    proto := "HTTP/1.1", referer := "", userAgent := "curl/8.0" }

/-- Shared concrete context fixture: status 200, 512 response bytes, no
identity claims, no recorded errors. -/
def sampleCtx : GContext :=
  { request := sampleRequest, contentType := "", clientIP := "203.0.113.7",
    writerSize := 512, writerStatus := 200, keys := [], errors := [],
    body := "", aborted := false, spanValid := false, spanErrored := false }

/-- The same context with a well-shaped identity-claims map present. -/
def sampleCtxUser : GContext :=
  { sampleCtx with
    keys := [("userClaims", GoValue.vmap [("UserID", GoValue.str "abc-123")])] }

/-- A concrete clock-read fixture: start at the epoch, field extraction
one second later, the `event.end` read two seconds later, all at UTC. -/
def clk0 : ClockReads := ⟨⟨0, 0⟩, ⟨1000000000, 0⟩, ⟨2000000000, 0⟩⟩

/-- A request whose every source value is absent or zero. -/
def emptyRequest : Request :=
  ⟨"", "", "", "", "", "", "", "", 0, "", "", "", ""⟩

/-- A request context whose every source value is absent or zero. -/
def emptyCtx : GContext :=
  ⟨emptyRequest, "", "", 0, 0, [], [], "", false, false, false⟩

/-! ## Claim theorems -/

/-- C3: the field set contains a `user.id` attribute if and only if the
request-scoped store holds, under the fixed key `userClaims`, a
string-keyed generic map containing a string-valued `UserID` entry, in
which case `user.id` equals that string; any other shape at that key
yields no `user.id` key (and extraction still succeeds, it being a
total function). -/
theorem userid_field_iff (c : GContext) (start now1 now2 : GoTime) :
    ((∃ uid, (generateLogFields c start now1 now2).lookup "user.id" =
        some (FieldValue.str uid)) ↔
      ∃ m uid, c.keys.lookup UserClaimsKey = some (GoValue.vmap m) ∧
        m.lookup "UserID" = some (GoValue.str uid)) ∧
    ∀ m uid, c.keys.lookup UserClaimsKey = some (GoValue.vmap m) →
      m.lookup "UserID" = some (GoValue.str uid) →
      (generateLogFields c start now1 now2).lookup "user.id" =
        some (FieldValue.str uid) := by
  constructor
  · constructor
    · rintro ⟨uid, h⟩
      rw [generateLogFields_lookup_userid] at h
      cases hu : userClaimsID c with
      | none => rw [hu] at h; simp at h
      | some uid' =>
        rw [hu] at h
        simp at h
        obtain ⟨m, hm1, hm2⟩ := (userClaimsID_eq_some c uid').mp hu
        exact ⟨m, uid, hm1, h ▸ hm2⟩
    · rintro ⟨m, uid, h1, h2⟩
      have hu : userClaimsID c = some uid :=
        (userClaimsID_eq_some c uid).mpr ⟨m, h1, h2⟩
      exact ⟨uid, by rw [generateLogFields_lookup_userid, hu]; rfl⟩
  · intro m uid h1 h2
    have hu : userClaimsID c = some uid :=
      (userClaimsID_eq_some c uid).mpr ⟨m, h1, h2⟩
    rw [generateLogFields_lookup_userid, hu]; rfl

/-- C3 witness: a well-shaped claims map yields the `user.id` field at a
concrete input. -/
theorem userid_field_iff_witness :
    (generateLogFields sampleCtxUser clk0.r0 clk0.r1 clk0.r2).lookup "user.id" =
      some (FieldValue.str "abc-123") :=
  (userid_field_iff sampleCtxUser clk0.r0 clk0.r1 clk0.r2).2
    [("UserID", GoValue.str "abc-123")] "abc-123" rfl rfl

/-- C4: field extraction is a total function (it has no error path) and
every call populates all 24 required attribute keys; an absent or empty
source value flows through as the zero value stored under the key (the
universal quantification includes contexts whose every source is
empty), never as an omitted key. -/
theorem generateLogFields_total_keys (c : GContext) (start now1 now2 : GoTime) :
    requiredLogKeys ⊆ (generateLogFields c start now1 now2).map Prod.fst := by
  rw [generateLogFields_eq_append, List.map_append, baseLogFields_keys]
  exact List.subset_append_left _ _

/-- C4 witness: at the all-empty context the keys are present and the
empty sources are stored as zero values under their keys. -/
theorem generateLogFields_total_keys_witness :
    "http.response.status_code" ∈
      (generateLogFields emptyCtx clk0.r0 clk0.r1 clk0.r2).map Prod.fst ∧
    (generateLogFields emptyCtx clk0.r0 clk0.r1 clk0.r2).lookup "url.path" =
      some (FieldValue.str "") ∧
    (generateLogFields emptyCtx clk0.r0 clk0.r1 clk0.r2).lookup "http.request.bytes" =
      some (FieldValue.int 0) :=
  ⟨generateLogFields_total_keys emptyCtx clk0.r0 clk0.r1 clk0.r2 (by decide),
    rfl, rfl⟩

/-- C10: the key list of the extracted field set is exactly the 24
fixed attribute names, in source order, plus the single key `user.id`
exactly when the user-claims checks succeed; no other key ever
appears. -/
theorem generateLogFields_key_set (c : GContext) (start now1 now2 : GoTime) :
    (generateLogFields c start now1 now2).map Prod.fst =
      requiredLogKeys ++
        (match userClaimsID c with
         | some _ => ["user.id"]
         | none => []) := by
  rw [generateLogFields_eq_append, List.map_append, baseLogFields_keys]
  cases h : userClaimsID c <;> simp

/-- C9: when the wrapped chain returns without a fault, the recovery
middleware performs no observable action: no log record, and the
context (status, body, span, everything) is exactly what the chain
returned. -/
theorem recovery_noop_on_normal (next : GContext → HandlerOutcome)
    (stackText : String) (clk : ClockReads) (c c' : GContext)
    (h : next c = HandlerOutcome.normal c') :
    RecoveryWithLoggerMiddleware next stackText clk c = (c', []) := by
  unfold RecoveryWithLoggerMiddleware
  rw [h]

/-- C9 witness: concrete no-fault request through the recoverer. -/
theorem recovery_noop_on_normal_witness :
    RecoveryWithLoggerMiddleware (fun c => HandlerOutcome.normal c)
      "goroutine 1 [running]:" clk0 sampleCtx = (sampleCtx, []) :=
  recovery_noop_on_normal (fun c => HandlerOutcome.normal c)
    "goroutine 1 [running]:" clk0 sampleCtx sampleCtx rfl

/-- C8: the stack snapshot attached to the panic log record is the
ambient stack text truncated to the 2048-byte buffer, hence at most
2048 bytes long, for every fault and every call-stack depth. -/
theorem recovery_stack_bounded (next : GContext → HandlerOutcome)
    (stackText : String) (clk : ClockReads) (c c' : GContext) (v : GoValue)
    (hp : next c = HandlerOutcome.panicked c' v) (hv : v.isNil = false) :
    ∃ rec : LogRecord,
      (RecoveryWithLoggerMiddleware next stackText clk c).2 = [rec] ∧
      ∃ s, rec.fields.lookup "error.stack_trace" = some (FieldValue.str s) ∧
        s.length ≤ 2048 := by
  unfold RecoveryWithLoggerMiddleware
  rw [hp]
  simp only [hv, Bool.false_eq_true, if_false]
  refine ⟨_, rfl, runtimeStack stackText 2048, ?_, runtimeStack_length_le _ _⟩
  rw [List.lookup_append, generateLogFields_lookup_errstack]
  rfl

/-- C8 witness: concrete panic with an oversized ambient stack text. -/
theorem recovery_stack_bounded_witness :
    ∃ rec : LogRecord,
      (RecoveryWithLoggerMiddleware
        (fun c => HandlerOutcome.panicked c (GoValue.str "boom"))
        (String.mk (List.replicate 5000 'a')) clk0 sampleCtx).2 = [rec] ∧
      ∃ s, rec.fields.lookup "error.stack_trace" = some (FieldValue.str s) ∧
        s.length ≤ 2048 :=
  recovery_stack_bounded (fun c => HandlerOutcome.panicked c (GoValue.str "boom"))
    (String.mk (List.replicate 5000 'a')) clk0 sampleCtx sampleCtx
    (GoValue.str "boom") rfl rfl

/-- C7: in the fault-caught path the start timestamp handed to field
extraction is the catch-point clock read `clk.r0` (the
`start := time.Now()` executed inside the deferred recovery function;
the middleware receives no original request start at all), so the
logged `event.duration` measures the span from the fault-catch point to
the extraction-time read `clk.r1` only. -/
theorem recovery_start_from_catch (next : GContext → HandlerOutcome)
    (stackText : String) (clk : ClockReads) (c c' : GContext) (v : GoValue)
    (hp : next c = HandlerOutcome.panicked c' v) (hv : v.isNil = false) :
    ∃ rec : LogRecord,
      (RecoveryWithLoggerMiddleware next stackText clk c).2 = [rec] ∧
      rec.fields.lookup "event.start" =
        some (FieldValue.str (formatGoTime clk.r0)) ∧
      rec.fields.lookup "event.duration" =
        some (FieldValue.rat (durationSeconds (clk.r1.wall - clk.r0.wall))) := by
  unfold RecoveryWithLoggerMiddleware
  rw [hp]
  simp only [hv, Bool.false_eq_true, if_false]
  refine ⟨_, rfl, ?_, ?_⟩
  · rw [List.lookup_append, generateLogFields_lookup_start]; rfl
  · rw [List.lookup_append, generateLogFields_lookup_duration]; rfl

/-- C7 witness: concrete panic; the logged start is the catch instant. -/
theorem recovery_start_from_catch_witness :
    ∃ rec : LogRecord,
      (RecoveryWithLoggerMiddleware
        (fun c => HandlerOutcome.panicked c (GoValue.str "boom"))
        "goroutine 1 [running]:" clk0 sampleCtx).2 = [rec] ∧
      rec.fields.lookup "event.start" =
        some (FieldValue.str (formatGoTime clk0.r0)) ∧
      rec.fields.lookup "event.duration" =
        some (FieldValue.rat (durationSeconds (clk0.r1.wall - clk0.r0.wall))) :=
  recovery_start_from_catch (fun c => HandlerOutcome.panicked c (GoValue.str "boom"))
    "goroutine 1 [running]:" clk0 sampleCtx sampleCtx (GoValue.str "boom") rfl rfl

/-- C6: under monotonic clock reads (start before the `time.Since`
read, which precedes the `time.Now()` read for `event.end`), the
`event.duration` value is a nonnegative fractional-second count whose
nanosecond numerator is exactly the span from start to the first read,
and the instant behind `event.end` exceeds start by the duration plus
exactly the gap between the two reads — the timer resolution of the
extraction. -/
theorem eventDuration_nonneg_consistent (c : GContext) (start now1 now2 : GoTime)
    (h1 : start.wall ≤ now1.wall) (h2 : now1.wall ≤ now2.wall) :
    ∃ d : ℚ,
      (generateLogFields c start now1 now2).lookup "event.duration" =
        some (FieldValue.rat d) ∧
      (generateLogFields c start now1 now2).lookup "event.start" =
        some (FieldValue.str (formatGoTime start)) ∧
      (generateLogFields c start now1 now2).lookup "event.end" =
        some (FieldValue.str (formatGoTime now2)) ∧
      0 ≤ d ∧
      d * 1000000000 = ((now1.wall - start.wall : ℤ) : ℚ) ∧
      ((now2.wall - start.wall : ℤ) : ℚ) - d * 1000000000 =
        ((now2.wall - now1.wall : ℤ) : ℚ) := by
  refine ⟨durationSeconds (now1.wall - start.wall),
    generateLogFields_lookup_duration c start now1 now2,
    generateLogFields_lookup_start c start now1 now2,
    generateLogFields_lookup_end c start now1 now2, ?_, ?_, ?_⟩
  · unfold durationSeconds
    apply div_nonneg _ (by norm_num)
    exact_mod_cast sub_nonneg.mpr h1
  · unfold durationSeconds
    field_simp
  · unfold durationSeconds
    field_simp

/-- C6 witness: concrete monotone clock reads one second apart. -/
theorem eventDuration_nonneg_consistent_witness :
    ∃ d : ℚ,
      (generateLogFields sampleCtx clk0.r0 clk0.r1 clk0.r2).lookup "event.duration" =
        some (FieldValue.rat d) ∧
      (generateLogFields sampleCtx clk0.r0 clk0.r1 clk0.r2).lookup "event.start" =
        some (FieldValue.str (formatGoTime clk0.r0)) ∧
      (generateLogFields sampleCtx clk0.r0 clk0.r1 clk0.r2).lookup "event.end" =
        some (FieldValue.str (formatGoTime clk0.r2)) ∧
      0 ≤ d ∧
      d * 1000000000 = ((clk0.r1.wall - clk0.r0.wall : ℤ) : ℚ) ∧
      ((clk0.r2.wall - clk0.r0.wall : ℤ) : ℚ) - d * 1000000000 =
        ((clk0.r2.wall - clk0.r1.wall : ℤ) : ℚ) :=
  eventDuration_nonneg_consistent sampleCtx clk0.r0 clk0.r1 clk0.r2
    (by decide) (by decide)

/-- C5: the code renders `event.start` and `event.end` with layout
`2006-01-02T15:04:05.000Z` WITHOUT converting to UTC — a bare `Z` in a
Go layout is a literal, and `.UTC()` is never called — so a time
captured in a zone one hour east of UTC is rendered as its local wall
clock with a `Z` suffix, differing from the UTC rendering the claim
requires. Evaluated here at the epoch instant captured at offset
+3600 s. -/
theorem format_local_zone_divergence :
    formatGoTime ⟨0, 3600⟩ = "1970-01-01T01:00:00.000Z" ∧
    formatTimestampSpecUTC ⟨0, 3600⟩ = "1970-01-01T00:00:00.000Z" ∧
    formatGoTime ⟨0, 3600⟩ ≠ formatTimestampSpecUTC ⟨0, 3600⟩ ∧
    (generateLogFields sampleCtx ⟨0, 3600⟩ ⟨0, 3600⟩ ⟨0, 3600⟩).lookup "event.start" =
      some (FieldValue.str "1970-01-01T01:00:00.000Z") := by
  refine ⟨by decide, by decide, by decide, by rfl⟩

/-- C1 (amended): on a fault with a non-nil recovered value and a
non-empty ambient stack, the recoverer emits exactly one error-level
record whose `error.message` attribute is the recovered fault value
itself (the empty string when the handler panicked with one) and whose
`error.stack_trace` is non-empty; it sets the response status to
exactly 500 while writing no body of its own (the body stays whatever
the handler had written), and — being a total function to a plain
pair — always returns normally, so no fault propagates. -/
theorem recovery_panic_log_record (next : GContext → HandlerOutcome)
    (stackText : String) (clk : ClockReads) (c c' : GContext) (v : GoValue)
    (hp : next c = HandlerOutcome.panicked c' v) (hv : v.isNil = false)
    (hs : stackText ≠ "") :
    ∃ rec : LogRecord,
      (RecoveryWithLoggerMiddleware next stackText clk c).2 = [rec] ∧
      rec.level = LogLevel.error ∧
      rec.fields.lookup "error.message" = some (FieldValue.go v) ∧
      (∃ s, rec.fields.lookup "error.stack_trace" = some (FieldValue.str s) ∧
        s ≠ "") ∧
      (RecoveryWithLoggerMiddleware next stackText clk c).1.writerStatus = 500 ∧
      (RecoveryWithLoggerMiddleware next stackText clk c).1.body = c'.body := by
  unfold RecoveryWithLoggerMiddleware
  rw [hp]
  simp only [hv, Bool.false_eq_true, if_false]
  refine ⟨_, rfl, rfl, ?_, ?_, ?_, ?_⟩
  · rw [List.lookup_append, generateLogFields_lookup_errmsg]; rfl
  · refine ⟨runtimeStack stackText 2048, ?_,
      runtimeStack_ne_empty stackText 2048 hs (by norm_num)⟩
    rw [List.lookup_append, generateLogFields_lookup_errstack]; rfl
  · trivial
  · cases hsp : c'.spanValid <;> simp [hsp]

/-- C1 witness: a concrete panic with payload `"division by zero"`. -/
theorem recovery_panic_log_record_witness :
    ∃ rec : LogRecord,
      (RecoveryWithLoggerMiddleware
        (fun c => HandlerOutcome.panicked c (GoValue.str "division by zero"))
        "goroutine 1 [running]:" clk0 sampleCtx).2 = [rec] ∧
      rec.level = LogLevel.error ∧
      rec.fields.lookup "error.message" =
        some (FieldValue.go (GoValue.str "division by zero")) ∧
      (∃ s, rec.fields.lookup "error.stack_trace" = some (FieldValue.str s) ∧
        s ≠ "") ∧
      (RecoveryWithLoggerMiddleware
        (fun c => HandlerOutcome.panicked c (GoValue.str "division by zero"))
        "goroutine 1 [running]:" clk0 sampleCtx).1.writerStatus = 500 ∧
      (RecoveryWithLoggerMiddleware
        (fun c => HandlerOutcome.panicked c (GoValue.str "division by zero"))
        "goroutine 1 [running]:" clk0 sampleCtx).1.body = sampleCtx.body :=
  recovery_panic_log_record
    (fun c => HandlerOutcome.panicked c (GoValue.str "division by zero"))
    "goroutine 1 [running]:" clk0 sampleCtx sampleCtx
    (GoValue.str "division by zero") rfl rfl (by decide)

/-- A handler that writes a partial body and then panics with the empty
string as its fault value. -/
def panicPartialHandler : GContext → HandlerOutcome :=
  fun c => HandlerOutcome.panicked { c with body := c.body ++ "partial" }
    (GoValue.str "")

/-- C1 counterexample: for the fault value `""` the logged
`error.message` attribute is the empty string (not non-empty), and when
the handler wrote body bytes before faulting the response body after
recovery is that partial body (not empty): `AbortWithStatus` sets the
status but cannot unwrite the body. -/
theorem recovery_panic_counterexample :
    ((RecoveryWithLoggerMiddleware panicPartialHandler
        "goroutine 1 [running]:" clk0 sampleCtx).2.map
      (fun r => r.fields.lookup "error.message")) =
      [some (FieldValue.go (GoValue.str ""))] ∧
    GoValue.render (GoValue.str "") = "" ∧
    (RecoveryWithLoggerMiddleware panicPartialHandler
      "goroutine 1 [running]:" clk0 sampleCtx).1.writerStatus = 500 ∧
    (RecoveryWithLoggerMiddleware panicPartialHandler
      "goroutine 1 [running]:" clk0 sampleCtx).1.body = "partial" ∧
    "partial" ≠ "" :=
  ⟨rfl, rfl, rfl, rfl, by decide⟩

/-- C2 (amended): on a fault-free request the logger emits exactly one
record: error level with message `Request failed: ` followed by the
joined rendering of all recorded errors when any were recorded,
otherwise info level with message `Request processed successfully`
(capital R — the code capitalizes the message); in both cases the
fields of the record bind exactly what field extraction produced. -/
theorem ginLogrus_one_record (next : GContext → HandlerOutcome) (clk : ClockReads)
    (c c' : GContext) (h : next c = HandlerOutcome.normal c') :
    ∃ rec : LogRecord,
      GinLogrus next clk c = MwResult.normal c' [rec] ∧
      (c'.errors = [] → rec.level = LogLevel.info ∧
        rec.message = "Request processed successfully") ∧
      (c'.errors ≠ [] → rec.level = LogLevel.error ∧
        rec.message = "Request failed: " ++ ginErrorsString c'.errors) ∧
      ∀ k : String, rec.fields.lookup k =
        (generateLogFields c' clk.r0 clk.r1 clk.r2).lookup k := by
  unfold GinLogrus
  rw [h]
  have hef : ∀ k : String,
      (match userClaimsID c' with
       | some userID =>
         upsert (generateLogFields c' clk.r0 clk.r1 clk.r2) "user.id"
           (FieldValue.str userID)
       | none => generateLogFields c' clk.r0 clk.r1 clk.r2).lookup k =
      (generateLogFields c' clk.r0 clk.r1 clk.r2).lookup k := by
    intro k
    cases hu : userClaimsID c' with
    | none => rfl
    | some uid =>
      rw [lookup_upsert]
      by_cases hk : k = "user.id"
      · subst hk
        rw [if_pos rfl, generateLogFields_lookup_userid, hu]; rfl
      · rw [if_neg hk]
  cases herr : c'.errors with
  | nil =>
    simp only [herr, List.length_nil, gt_iff_lt, lt_irrefl, if_false]
    exact ⟨_, rfl, fun _ => ⟨rfl, rfl⟩, fun hne => absurd rfl hne, hef⟩
  | cons e rest =>
    simp only [herr, List.length_cons, gt_iff_lt, Nat.zero_lt_succ, if_true]
    refine ⟨_, rfl, fun heq => absurd heq (by simp), fun _ => ⟨rfl, rfl⟩, hef⟩

/-- C2 witness: concrete fault-free request with no recorded errors. -/
theorem ginLogrus_one_record_witness :
    ∃ rec : LogRecord,
      GinLogrus (fun c => HandlerOutcome.normal c) clk0 sampleCtx =
        MwResult.normal sampleCtx [rec] ∧
      (sampleCtx.errors = [] → rec.level = LogLevel.info ∧
        rec.message = "Request processed successfully") ∧
      (sampleCtx.errors ≠ [] → rec.level = LogLevel.error ∧
        rec.message = "Request failed: " ++ ginErrorsString sampleCtx.errors) ∧
      ∀ k : String, rec.fields.lookup k =
        (generateLogFields sampleCtx clk0.r0 clk0.r1 clk0.r2).lookup k :=
  ginLogrus_one_record (fun c => HandlerOutcome.normal c) clk0
    sampleCtx sampleCtx rfl

/-- The records a middleware outcome carries (none on a propagating
panic). -/
def MwResult.logs : MwResult → List LogRecord
  | .normal _ logs => logs
  | .panicked _ _ => []

/-- C2 counterexample: the success-path message the code emits is
`Request processed successfully`, which is not the string
`request processed successfully` the claim specifies. -/
theorem ginLogrus_message_counterexample :
    ((GinLogrus (fun c => HandlerOutcome.normal c) clk0 sampleCtx).logs.map
      (fun r => r.message)) = ["Request processed successfully"] ∧
    "Request processed successfully" ≠ "request processed successfully" :=
  ⟨rfl, by decide⟩

end GinLogrus
